import Mathlib

/-!
Verification of the MIRE-Bot book-club suggestion catalog
(src/book_club/suggestions.py) against its natural-language specification.

The repository ships only `src/book_club/suggestions.py`; the persistence
layer (`database.Suggestion`), the role predicate (`utils.roles.is_lit_chair`)
and the formatting helper (`utils.abbreviate`) are imported from modules that
are not part of the sources.  Those are modelled from the spec, each with a
doc comment saying so; everything else is translated from the Python source.
-/

/-- One suggestion record, after the persisted schema listed in the spec
(title, owner_id, total_chapters, next_chapter, notes, is_prioritized).
Chapter counters are `Int` because they come from Python's `int()`, which can
produce negative values. -/
structure Suggestion where
  title : String
  owner_id : Nat
  total_ch : Int
  next_ch : Int
  notes : String
  is_prioritized : Bool
  deriving Repr, DecidableEq

/-- The catalog state: the entity store's records in creation order.  The
store in the source is `database.Suggestion`; `Suggestion.all()` returns all
records. -/
def Store : Type := List Suggestion

/-- Error taxonomy.  `duplicateTitle`, `notFound`, `invalidInput` are the
spec's Entity Store errors; `checkFailure` is the `CheckFailure` raised by
the source's `interaction_check` (the spec's `Unauthorized` signal);
`valueError` and `attributeError` are the unhandled Python exceptions the
source can raise (`int()` on a non-numeric string, attribute lookup on an
object lacking it). -/
inductive Err where
  | duplicateTitle
  | notFound
  | invalidInput
  | checkFailure
  | valueError
  | attributeError
  deriving Repr, DecidableEq

/-- Does the store hold a record with this title?  Titles are the primary
key. -/
def hasTitle (st : List Suggestion) (t : String) : Bool :=
  st.any (fun s => s.title == t)

/-- Modelled from the spec: `Suggestion.get(title)` lives in the absent
`database` module.  Spec: "get(title) -> Suggestion: fails with NotFound if
absent"; exact-match lookup by title. -/
def Suggestion.get (st : List Suggestion) (t : String) : Except Err Suggestion :=
  match st.find? (fun s => s.title == t) with
  | some s => Except.ok s
  | none => Except.error Err.notFound

/-- Modelled from the spec: `Suggestion.new(title, owner, total, notes)`
lives in the absent `database` module.  Spec: "create(title, owner_id,
total_chapters, notes) -> Suggestion: fails with DuplicateTitle if title
already exists; fails with InvalidInput if notes empty or
total_chapters < 0"; `next_chapter` defaults to 0 and `is_prioritized` to
false; records keep creation order. -/
def Suggestion.new (st : List Suggestion) (t : String) (owner : Nat)
    (total : Int) (notes : String) : Except Err (List Suggestion) :=
  if hasTitle st t then Except.error Err.duplicateTitle
  else if notes = "" ∨ total < 0 then Except.error Err.invalidInput
  else Except.ok (st ++ [{ title := t, owner_id := owner, total_ch := total,
                           next_ch := 0, notes := notes, is_prioritized := false }])

/-- Modelled from the spec: `Suggestion.from_user(owner)` lives in the absent
`database` module.  Spec: "list_by_owner(owner_id) -> ordered sequence of
Suggestion, same ordering, filtered to owner_id". -/
def Suggestion.from_user (u : Nat) (st : List Suggestion) : List Suggestion :=
  st.filter (fun s => s.owner_id == u)

/-- Python's `int(s)` on a text field, as the source uses it: strip
whitespace, allow one optional sign, then decimal digits; anything else
raises `ValueError`. -/
def pyInt (s : String) : Except Err Int :=
  let cs := (((s.data.dropWhile fun c => c.isWhitespace).reverse.dropWhile
      fun c => c.isWhitespace)).reverse
  let signed : Bool × List Char :=
    match cs with
    | '-' :: rest => (true, rest)
    | '+' :: rest => (false, rest)
    | _ => (false, cs)
  if signed.2 ≠ [] ∧ signed.2.all (fun c => c.isDigit) then
    let n : Nat := signed.2.foldl (fun acc c => 10 * acc + (c.toNat - 48)) 0
    Except.ok (if signed.1 then -(n : Int) else (n : Int))
  else Except.error Err.valueError

/-- `AddModal.on_submit`: read the title, parse the chapters field with
`int()` when it is non-empty (otherwise `total_ch = 0`), read the notes, and
call `Suggestion.new(title, user.id, total_ch, notes)`.  An exception from
`int()` or from the store propagates. -/
def addOnSubmit (titleV chaptersV notesV : String) (userId : Nat)
    (st : List Suggestion) : Except Err (List Suggestion) := do
  let total_ch ← if chaptersV.length > 0 then pyInt chaptersV else pure 0
  Suggestion.new st titleV userId total_ch notesV

/-- The add flow at the store level: a failed submission leaves the store as
it was (an exception aborts before any mutation is committed). -/
def addFlow (titleV chaptersV notesV : String) (userId : Nat)
    (st : List Suggestion) : Except Err Unit × List Suggestion :=
  match addOnSubmit titleV chaptersV notesV userId st with
  | Except.ok st2 => (Except.ok (), st2)
  | Except.error e => (Except.error e, st)

/-- `EditModal.on_submit`, applied to the record the modal was opened on
(`self.suggestion`): assign `TITLE.value` to the record's title; when the
`NEXT_CH` field is non-empty, parse it with `int()` and assign `next_ch`;
when the `TOTAL_CH` field is non-empty, parse it with `int()` and assign
`total_ch`; then assign `NOTES.value` to `self.notes` — the modal object's
own attribute, not the record — and commit.  The returned record is the
committed one. -/
def editApply (s : Suggestion) (titleV nextV totalV notesV : String) :
    Except Err Suggestion := do
  let s1 := { s with title := titleV }
  let s2 ←
    if nextV.length > 0 then do
      let n ← pyInt nextV
      pure { s1 with next_ch := n }
    else pure s1
  let s3 ←
    if totalV.length > 0 then do
      let n ← pyInt totalV
      pure { s2 with total_ch := n }
    else pure s2
  let _modalNotes := notesV
  pure s3

/-- `RemoveDropdown.callback`: the source iterates `self.values` — the list
of selected option value strings — and calls `entry.remove()` on each.  A
Python `str` has no `remove` attribute, so the first iteration raises
`AttributeError`; with an empty selection the loop body never runs. -/
def removeDropdownCallback (values : List String) (st : List Suggestion) :
    Except Err (List Suggestion) :=
  match values with
  | [] => Except.ok st
  | _ :: _ => Except.error Err.attributeError

/-- The remove flow at the store level: an exception in the callback aborts
the interaction and leaves the store as it was. -/
def removeFlow (values : List String) (st : List Suggestion) :
    Except Err Unit × List Suggestion :=
  match removeDropdownCallback values st with
  | Except.ok st2 => (Except.ok (), st2)
  | Except.error e => (Except.error e, st)

/-- `PrioritizeDropdown.callback`: for each selected record, set
`is_prioritized = True`.  Records that are not selected are not touched.
The dropdown's option values are the records' unique store keys
(`entry.doc_id`, from the absent `database` module — modelled here as the
title, the record's primary key, so that `get_all`'s lookup resolves). -/
def prioritizeCallback (selected : List String) (st : List Suggestion) :
    List Suggestion :=
  st.map (fun s => if selected.contains s.title then
                     { s with is_prioritized := true }
                   else s)

/-- `PrioritizeDropdown.interaction_check` followed by its callback: the
check runs first and raises `CheckFailure` when `is_lit_chair(user)` is
false, in which case the callback never runs and the store is untouched;
otherwise the callback applies.  `is_lit_chair` lives in the absent
`utils.roles` module and is passed in as the role predicate. -/
def prioritizeInteraction (isLitChair : Nat → Bool) (userId : Nat)
    (selected : List String) (st : List Suggestion) :
    Except Err Unit × List Suggestion :=
  if isLitChair userId then (Except.ok (), prioritizeCallback selected st)
  else (Except.error Err.checkFailure, st)

/-- Modelled from the spec: the sort key `status` is derived in the absent
`database` module, "computed from is_prioritized ... prioritized entries
sort first".  Prioritized records get the smaller key. -/
def statusKey (s : Suggestion) : Nat :=
  if s.is_prioritized then 0 else 1

/-- Insert a record into an already sorted run, before the first element of
equal or larger key: together with `sortByStatus` this is a stable
insertion sort, agreeing with Python's stable `sorted(key=...)` (any two
stable sorts by the same key coincide). -/
def insertByStatus (a : Suggestion) : List Suggestion → List Suggestion
  | [] => [a]
  | b :: t => if statusKey a ≤ statusKey b then a :: b :: t
              else b :: insertByStatus a t

/-- `sorted(Suggestion.all(), key=lambda s: s.status)` from
`suggestions_embed`: a stable sort of the store by status key. -/
def sortByStatus : List Suggestion → List Suggestion
  | [] => []
  | a :: t => insertByStatus a (sortByStatus t)

/-- Modelled from the spec: `abbreviate` lives in the absent `utils`
module.  Spec: "title truncated/elided beyond a fixed display-length bound
... final characters replaced with an ellipsis marker when the title
exceeds the bound". -/
def abbreviate (t : String) : String :=
  if t.length ≤ 100 then t else (t.take 99).push '…'

/-- Modelled from the spec: `display_title` lives in the absent `database`
module.  Spec on Catalog Rendering: one line per entry, using an
abbreviated title. -/
def displayTitle (s : Suggestion) : String :=
  abbreviate s.title

/-- `suggestions_embed`'s description: one `display_title` line per record,
in the order of the stable status sort. -/
def renderLines (st : List Suggestion) : List String :=
  (sortByStatus st).map displayTitle

/-- `UserSuggestionsDropdown.__init__`: the menu's option values are the
titles of `Suggestion.from_user(user.id)`, in order. -/
def userMenuValues (u : Nat) (st : List Suggestion) : List String :=
  (Suggestion.from_user u st).map (fun s => s.title)

/-- `SuggestionsDropdown.__init__`: the full menu's option values are the
titles of `Suggestion.all()`, in order. -/
def allMenuValues (st : List Suggestion) : List String :=
  st.map (fun s => s.title)

/-! ### Lemmas about the stable status sort -/

theorem insertByStatus_of_prioritized (a : Suggestion) (l : List Suggestion)
    (ha : statusKey a = 0) : insertByStatus a l = a :: l := by
  cases l with
  | nil => rfl
  | cons b t =>
      unfold insertByStatus
      rw [if_pos]
      rw [ha]
      exact Nat.zero_le _

theorem insertByStatus_of_unprioritized (a : Suggestion)
    (P N : List Suggestion) (ha : statusKey a = 1)
    (hP : ∀ x ∈ P, statusKey x = 0) (hN : ∀ y ∈ N, statusKey y = 1) :
    insertByStatus a (P ++ N) = P ++ a :: N := by
  induction P with
  | nil =>
      cases N with
      | nil => rfl
      | cons y t =>
          simp only [List.nil_append]
          unfold insertByStatus
          rw [if_pos]
          rw [ha, hN y (List.mem_cons_self y t)]
  | cons b P ih =>
      have hb : statusKey b = 0 := hP b (List.mem_cons_self b P)
      simp only [List.cons_append]
      unfold insertByStatus
      rw [if_neg]
      · rw [ih (fun x hx => hP x (List.mem_cons_of_mem b hx))]
      · rw [ha, hb]
        exact Nat.not_succ_le_zero 0

theorem sortByStatus_eq_filter_append (l : List Suggestion) :
    sortByStatus l =
      l.filter (fun s => s.is_prioritized) ++
      l.filter (fun s => !s.is_prioritized) := by
  induction l with
  | nil => rfl
  | cons a t ih =>
      unfold sortByStatus
      rw [ih]
      by_cases hp : a.is_prioritized
      · rw [insertByStatus_of_prioritized a _ (by simp [statusKey, hp])]
        simp [List.filter_cons, hp]
      · rw [insertByStatus_of_unprioritized a _ _ (by simp [statusKey, hp])
          (fun x hx => by
            have := List.of_mem_filter hx
            simp only [decide_eq_true_eq] at this
            simp [statusKey, this])
          (fun y hy => by
            have := List.of_mem_filter hy
            simp only [Bool.not_eq_true'] at this
            simp [statusKey, this])]
        simp [List.filter_cons, hp]

/-! ### Claim theorems -/

/-- C1.  The claim says a prioritize submission selecting subset S leaves
`is_prioritized` true for exactly S and false for every other entry.  The
code only ever assigns `True` to the selected records and never clears the
flag on unselected ones: here an authorized submission with the empty
selection leaves the already prioritized entry "A" flagged, where the claim
requires the flag cleared. -/
theorem prioritize_empty_selection_leaves_flag_set :
    prioritizeInteraction (fun _ => true) 7 []
      [{ title := "A", owner_id := 1, total_ch := 0, next_ch := 0,
         notes := "n", is_prioritized := true }] =
      (Except.ok (),
       [{ title := "A", owner_id := 1, total_ch := 0, next_ch := 0,
          notes := "n", is_prioritized := true }]) ∧
    ({ title := "A", owner_id := 1, total_ch := 0, next_ch := 0,
       notes := "n", is_prioritized := true } : Suggestion).is_prioritized = true := by
  constructor
  · rfl
  · rfl

/-- C2.  When the role predicate returns false for the acting user, the
prioritize interaction is rejected with the `CheckFailure` signal
(`Unauthorized`) before the callback runs, and the store — hence every
entry's `is_prioritized` field — is unchanged, whatever the selection. -/
theorem unauthorized_prioritize_rejected_without_mutation
    (isLitChair : Nat → Bool) (userId : Nat) (selected : List String)
    (st : List Suggestion) (h : isLitChair userId = false) :
    prioritizeInteraction isLitChair userId selected st =
      (Except.error Err.checkFailure, st) := by
  unfold prioritizeInteraction
  rw [h]
  rfl

/-- Witness for C2 at a concrete non-privileged user, selection and store. -/
theorem unauthorized_prioritize_rejected_without_mutation_witness :
    (fun _ : Nat => false) 0 = false ∧
    prioritizeInteraction (fun _ => false) 0 ["A"]
      [{ title := "A", owner_id := 1, total_ch := 0, next_ch := 0,
         notes := "n", is_prioritized := false }] =
      (Except.error Err.checkFailure,
       [{ title := "A", owner_id := 1, total_ch := 0, next_ch := 0,
          notes := "n", is_prioritized := false }]) :=
  ⟨rfl, unauthorized_prioritize_rejected_without_mutation
          (fun _ => false) 0 ["A"] _ rfl⟩

/-- C3.  The claim says an edit submission applies all submitted fields —
title, next chapter, total chapters AND notes — together.  The code assigns
the submitted notes to the modal's own `notes` attribute (`self.notes`)
instead of the record's (`self.suggestion.notes`), so a notes-only edit
commits a record whose notes are unchanged: here notes "old" are submitted
as "new" and the committed record still carries "old". -/
theorem edit_drops_notes_change :
    editApply
      { title := "Dune", owner_id := 1, total_ch := 3, next_ch := 0,
        notes := "old", is_prioritized := false } "Dune" "" "" "new" =
      Except.ok { title := "Dune", owner_id := 1, total_ch := 3, next_ch := 0,
                  notes := "old", is_prioritized := false } ∧
    ("old" : String) ≠ "new" := by
  constructor
  · rfl
  · decide

/-- C4.  Creating a suggestion whose title already exists fails with
`DuplicateTitle`, and an add-flow submission under that title leaves the
store — and therefore the existing record with all its fields — exactly as
it was. -/
theorem create_duplicate_title_fails_and_preserves_store
    (st : List Suggestion) (t : String) (owner : Nat) (total : Int)
    (notes chapters : String) (h : hasTitle st t = true) :
    Suggestion.new st t owner total notes = Except.error Err.duplicateTitle ∧
    (addFlow t chapters notes owner st).2 = st := by
  have hnew : ∀ (c : Int) (n : String),
      Suggestion.new st t owner c n = Except.error Err.duplicateTitle := by
    intro c n
    unfold Suggestion.new
    rw [if_pos h]
  refine ⟨hnew total notes, ?_⟩
  unfold addFlow addOnSubmit
  by_cases hc : chapters.length > 0
  · rw [if_pos hc]
    cases hp : pyInt chapters with
    | ok v => simp [hp, hnew, Bind.bind, Except.bind]
    | error e => simp [hp, Bind.bind, Except.bind]
  · rw [if_neg hc]
    simp [hnew, Bind.bind, Except.bind, pure, Except.pure]

/-- Witness for C4: the store already holds "Dune"; creating "Dune" again
fails and the store is untouched. -/
theorem create_duplicate_title_fails_and_preserves_store_witness :
    hasTitle [{ title := "Dune", owner_id := 1, total_ch := 0, next_ch := 0,
                notes := "classic", is_prioritized := false }] "Dune" = true ∧
    (Suggestion.new [{ title := "Dune", owner_id := 1, total_ch := 0,
                       next_ch := 0, notes := "classic",
                       is_prioritized := false }] "Dune" 2 0 "dup" =
        Except.error Err.duplicateTitle ∧
      (addFlow "Dune" "" "dup" 2
        [{ title := "Dune", owner_id := 1, total_ch := 0, next_ch := 0,
           notes := "classic", is_prioritized := false }]).2 =
        [{ title := "Dune", owner_id := 1, total_ch := 0, next_ch := 0,
           notes := "classic", is_prioritized := false }]) :=
  ⟨by decide,
   create_duplicate_title_fails_and_preserves_store _ "Dune" 2 0 "dup" ""
     (by decide)⟩

/-- C5.  The claim says a removal submitted through the remove flow deletes
the entry, after which `get` fails with `NotFound`.  The code iterates the
dropdown's `values` — plain strings — and calls `.remove()` on each string,
which raises `AttributeError` on the first selected item; the flow aborts,
nothing is deleted, and `get` still succeeds on the selected title. -/
theorem remove_flow_raises_attribute_error :
    removeFlow ["Dune"]
      [{ title := "Dune", owner_id := 1, total_ch := 0, next_ch := 0,
         notes := "classic", is_prioritized := false }] =
      (Except.error Err.attributeError,
       [{ title := "Dune", owner_id := 1, total_ch := 0, next_ch := 0,
          notes := "classic", is_prioritized := false }]) ∧
    Suggestion.get
      [{ title := "Dune", owner_id := 1, total_ch := 0, next_ch := 0,
         notes := "classic", is_prioritized := false }] "Dune" =
      Except.ok { title := "Dune", owner_id := 1, total_ch := 0, next_ch := 0,
                  notes := "classic", is_prioritized := false } := by
  constructor
  · rfl
  · rfl

/-- C6.  The rendered listing is the display title of every prioritized
entry, in store order, strictly before the display title of every
non-prioritized entry, also in store order; and rendering the same state
twice yields the same lines. -/
theorem render_prioritized_first_and_deterministic (st : List Suggestion) :
    renderLines st =
      ((st.filter fun s => s.is_prioritized) ++
       (st.filter fun s => !s.is_prioritized)).map displayTitle ∧
    renderLines st = renderLines st := by
  refine ⟨?_, rfl⟩
  unfold renderLines
  rw [sortByStatus_eq_filter_append]

/-- C7.  The owner-filtered candidate list behind the edit and remove menus
is an order-preserving subsequence of the full suggestion list, its members
are exactly the entries owned by the user, and the menu's option values are
its titles in that order. -/
theorem owner_filter_is_ordered_subsequence (u : Nat) (st : List Suggestion) :
    List.Sublist (Suggestion.from_user u st) st ∧
    (∀ s, s ∈ Suggestion.from_user u st ↔ (s ∈ st ∧ s.owner_id = u)) ∧
    userMenuValues u st = (Suggestion.from_user u st).map (fun s => s.title) := by
  refine ⟨List.filter_sublist st, ?_, rfl⟩
  intro s
  unfold Suggestion.from_user
  rw [List.mem_filter]
  simp

/-- C8 counterexample.  The claim says an add submission with non-empty
non-numeric chapters fails with `InvalidInput` surfaced as a rejected
submission rather than an unhandled error.  On the concrete submission
("T", chapters "abc", notes "note") the code raises an unhandled
`ValueError` from `int("abc")` — a different outcome than an
`InvalidInput` rejection. -/
theorem add_nonnumeric_chapters_not_invalid_input :
    (addFlow "T" "abc" "note" 1 []).1 = Except.error Err.valueError ∧
    Err.valueError ≠ Err.invalidInput := by
  constructor
  · rfl
  · intro h
    cases h

/-- C8 amended.  An add submission whose chapters field is non-empty and
non-numeric fails with an unhandled `ValueError` raised by `int()` — not an
`InvalidInput` rejection — and no suggestion is created: the store is
unchanged. -/
theorem add_nonnumeric_chapters_unhandled_value_error
    (titleV chaptersV notesV : String) (userId : Nat) (st : List Suggestion)
    (hlen : chaptersV.length > 0)
    (hch : pyInt chaptersV = Except.error Err.valueError) :
    addFlow titleV chaptersV notesV userId st =
      (Except.error Err.valueError, st) := by
  unfold addFlow addOnSubmit
  rw [if_pos hlen, hch]
  rfl

/-- Witness for C8 amended at chapters "abc". -/
theorem add_nonnumeric_chapters_unhandled_value_error_witness :
    ("abc" : String).length > 0 ∧
    pyInt "abc" = Except.error Err.valueError ∧
    addFlow "T" "abc" "note" 1 [] = (Except.error Err.valueError, []) :=
  ⟨by decide, rfl,
   add_nonnumeric_chapters_unhandled_value_error "T" "abc" "note" 1 []
     (by decide) rfl⟩

/-- C9.  Whatever field values an edit submission carries, a committed edit
never changes the record's `owner_id`: the edit flow can rename the title
but never reassigns ownership. -/
theorem edit_preserves_owner (s : Suggestion) (titleV nextV totalV notesV : String)
    (r : Suggestion) (h : editApply s titleV nextV totalV notesV = Except.ok r) :
    r.owner_id = s.owner_id := by
  by_cases h1 : nextV.length > 0 <;> by_cases h2 : totalV.length > 0 <;>
    cases hn : pyInt nextV <;> cases ht : pyInt totalV <;>
      simp_all [editApply, Bind.bind, Except.bind, pure, Except.pure] <;>
      simp [← h]

/-- Witness for C9: an edit that renames "Dune" to "Arrakis" keeps the
record owned by user 1. -/
theorem edit_preserves_owner_witness :
    editApply
      { title := "Dune", owner_id := 1, total_ch := 3, next_ch := 0,
        notes := "old", is_prioritized := false } "Arrakis" "" "" "new" =
      Except.ok { title := "Arrakis", owner_id := 1, total_ch := 3,
                  next_ch := 0, notes := "old", is_prioritized := false } ∧
    ({ title := "Arrakis", owner_id := 1, total_ch := 3, next_ch := 0,
       notes := "old", is_prioritized := false } : Suggestion).owner_id =
      ({ title := "Dune", owner_id := 1, total_ch := 3, next_ch := 0,
         notes := "old", is_prioritized := false } : Suggestion).owner_id :=
  ⟨rfl, edit_preserves_owner _ "Arrakis" "" "" "new" _ rfl⟩

/-- C10.  An add submission with the chapters field left empty creates the
suggestion with `total_chapters = 0` (next chapter 0, unprioritized,
appended in creation order), provided the title is new and the required
notes are non-empty. -/
theorem add_empty_chapters_creates_with_zero_total
    (st : List Suggestion) (t notes : String) (userId : Nat)
    (hdup : hasTitle st t = false) (hnotes : notes ≠ "") :
    addFlow t "" notes userId st =
      (Except.ok (),
       st ++ [{ title := t, owner_id := userId, total_ch := 0, next_ch := 0,
                notes := notes, is_prioritized := false }]) := by
  have h0 : addOnSubmit t "" notes userId st = Suggestion.new st t userId 0 notes := rfl
  unfold addFlow
  rw [h0]
  simp [Suggestion.new, hdup, hnotes]

/-- Witness for C10: submitting title "Dune" with empty chapters on the
empty store creates it with zero total chapters. -/
theorem add_empty_chapters_creates_with_zero_total_witness :
    hasTitle [] "Dune" = false ∧
    ("classic" : String) ≠ "" ∧
    addFlow "Dune" "" "classic" 1 [] =
      (Except.ok (),
       [{ title := "Dune", owner_id := 1, total_ch := 0, next_ch := 0,
          notes := "classic", is_prioritized := false }]) :=
  ⟨by decide, by decide,
   add_empty_chapters_creates_with_zero_total [] "Dune" "classic" 1
     (by decide) (by decide)⟩
